import Mathlib

/-!
Shallow embedding of `src/tuned/ppd/controller.py` (the PPD arbitration
core of the tuned repository): the mode translator tables, the
`ProfileHoldManager` (hold registry) and the `Controller`, with the DBus
entry points `HoldProfile`, `ReleaseProfile` and the `ActiveProfile`
setter.

Modelling conventions:
* `PPDProfile` / `TuneDProfile` are Python `StrEnum`s whose members are
  equal (as strings) to their values; the string comparisons performed by
  the Python code at the DBus boundary are modelled by `parsePPD`, and
  validated profiles are carried as inductive values afterwards.
* The Python objects `ProfileHoldManager` and `Controller` share one
  mutable state; we model it as `ControllerState` threaded explicitly.
  `holds` is the Python dict `_holds` as an insertion-ordered association
  list (Python dicts preserve insertion order).
* The tuned backend (`self._tuned_interface`) is modelled by the `backend`
  field (its currently applied profile).  A backend switch call may fail
  (`backend-unavailable`); each operation takes a boolean `ok` saying
  whether a backend switch attempted during it succeeds.
* `exports.send_signal("ProfileReleased", cookie)` is modelled by
  appending `cookie` to the `signals` list.  Log calls and
  `watch.cancel()` have no modelled effect; the liveness watch handle is
  recorded as the caller identity bound to it.
* Python exceptions are modelled by `Except PyError`; because a Python
  exception unwinds *after* earlier attribute mutations have happened,
  every operation returns the post-state alongside the result.
-/

namespace TunedPPD

/-- The PPD profile vocabulary (`PPDProfile` StrEnum in the source):
power-saver, balanced, performance. -/
inductive PPDProfile where
  | power_saver
  | balanced
  | performance
deriving DecidableEq, Repr

/-- The tuned backend profile vocabulary (`TuneDProfile` StrEnum):
powersave, balanced, throughput-performance. -/
inductive TuneDProfile where
  | powersave
  | balanced
  | throughput_performance
deriving DecidableEq, Repr

/-- The `PPD_TO_TUNED` dict of the source, as a total function. -/
def PPD_TO_TUNED : PPDProfile → TuneDProfile
  | .power_saver => .powersave
  | .balanced => .balanced
  | .performance => .throughput_performance

/-- The `TUNED_TO_PPD` dict of the source, as a total function. -/
def TUNED_TO_PPD : TuneDProfile → PPDProfile
  | .powersave => .power_saver
  | .balanced => .balanced
  | .throughput_performance => .performance

/-- String value of a `PPDProfile` StrEnum member. -/
def PPDProfile.toStr : PPDProfile → String
  | .power_saver => "power-saver"
  | .balanced => "balanced"
  | .performance => "performance"

/-- Membership test `profile in PPDProfile` of the Python code: a string
belongs to the StrEnum iff it equals one of the three member values. -/
def parsePPD (s : String) : Option PPDProfile :=
  if s = "power-saver" then some .power_saver
  else if s = "balanced" then some .balanced
  else if s = "performance" then some .performance
  else none

/-- Python exceptions raised by the embedded code: `dbus.exceptions.DBusException`
(with its message, quotes elided), a failure of the backend switch call,
and `RuntimeError` (raised by CPython when a dict changes size during
iteration). -/
inductive PyError where
  | dbusException (msg : String)
  | backendUnavailable
  | runtimeError (msg : String)
deriving DecidableEq, Repr

/-- A `ProfileHold` record: requested profile, reason, application id, and
the liveness watch (modelled by the watched caller identity). -/
structure ProfileHold where
  profile : PPDProfile
  reason : String
  app_id : String
  watch : String
deriving DecidableEq, Repr

/-- The joint mutable state of `Controller` and its `ProfileHoldManager`:
`holds` and `_cookie_counter` of the manager, `_base_profile` of the
controller, the profile currently applied by the tuned backend, and the
list of cookies carried by emitted `ProfileReleased` signals. -/
structure ControllerState where
  holds : List (Nat × ProfileHold)
  cookie_counter : Nat
  base_profile : PPDProfile
  backend : TuneDProfile
  signals : List Nat
deriving DecidableEq, Repr

/-- Python dict assignment `d[k] = v`: replace in place if the key is
present, else append (insertion order). -/
def dictInsert (k : Nat) (v : ProfileHold) :
    List (Nat × ProfileHold) → List (Nat × ProfileHold)
  | [] => [(k, v)]
  | (k₀, v₀) :: rest =>
      if k₀ = k then (k, v) :: rest else (k₀, v₀) :: dictInsert k v rest

/-- Python `d.pop(k)` (ignoring the returned value): delete the entry with
key `k`. -/
def dictPop (k : Nat) (l : List (Nat × ProfileHold)) :
    List (Nat × ProfileHold) :=
  l.filter fun e => e.1 != k

/-- `Controller.active_profile`: read the backend profile and translate it
back to the PPD vocabulary. -/
def active_profile (st : ControllerState) : PPDProfile :=
  TUNED_TO_PPD st.backend

/-- `Controller.switch_profile`: no-op when the backend already reports
`profile`; otherwise instruct the backend to switch to
`PPD_TO_TUNED[profile]`, which succeeds iff `ok`. -/
def switch_profile (ok : Bool) (st : ControllerState) (profile : PPDProfile) :
    Except PyError Unit × ControllerState :=
  if active_profile st = profile then (.ok (), st)
  else if ok then (.ok (), { st with backend := PPD_TO_TUNED profile })
  else (.error .backendUnavailable, st)

/-- `ProfileHoldManager._effective_hold_profile`: power-saver if any
active hold requests power-saver, else performance. -/
def effective_hold_profile (st : ControllerState) : PPDProfile :=
  if st.holds.any (fun e => e.2.profile = PPDProfile.power_saver) then
    PPDProfile.power_saver
  else PPDProfile.performance

/-- `ProfileHoldManager._cancel`: return unchanged if the cookie is
absent; otherwise pop the hold, cancel its watch, and emit a
`ProfileReleased` signal carrying the cookie. -/
def cancel (st : ControllerState) (cookie : Nat) : ControllerState :=
  match st.holds.lookup cookie with
  | none => st
  | some _ =>
      { st with
        holds := dictPop cookie st.holds
        signals := st.signals ++ [cookie] }

/-- `ProfileHoldManager.remove`: `_cancel` the cookie, then switch to the
effective hold profile if holds remain, else to the base profile. -/
def remove (ok : Bool) (st : ControllerState) (cookie : Nat) :
    Except PyError Unit × ControllerState :=
  let st₁ := cancel st cookie
  let new_profile :=
    if st₁.holds.length ≠ 0 then effective_hold_profile st₁
    else st₁.base_profile
  switch_profile ok st₁ new_profile

/-- One pass of the CPython dict iterator driving
`for cookie in self._holds: self._cancel(cookie)`.  The iterator records
the dict size at creation and every `next()` call first compares it with
the current size, raising `RuntimeError` on mismatch; `_cancel` pops the
yielded cookie, so the size check fails at the very next step whenever the
dict was nonempty. -/
def clearLoop (st : ControllerState) (remaining : List Nat)
    (snapshot : Nat) : Except PyError Unit × ControllerState :=
  if st.holds.length ≠ snapshot then
    (.error (.runtimeError "dictionary changed size during iteration"), st)
  else
    match remaining with
    | [] => (.ok (), st)
    | c :: rest => clearLoop (cancel st c) rest snapshot

/-- `ProfileHoldManager.clear`: iterate over the keys of `_holds`,
cancelling each — mutating the dict under its own iterator. -/
def clear (st : ControllerState) : Except PyError Unit × ControllerState :=
  clearLoop st (st.holds.map Prod.fst) st.holds.length

/-- Registry state reached inside `ProfileHoldManager.add` once the next
cookie has been allocated (counter bumped), the liveness watch on `caller`
registered, and the hold stored — that is, just before the switch
attempt. -/
def addState (st : ControllerState) (profile : PPDProfile)
    (reason app_id caller : String) : ControllerState :=
  { st with
    cookie_counter := st.cookie_counter + 1
    holds := dictInsert st.cookie_counter ⟨profile, reason, app_id, caller⟩
      st.holds }

/-- `ProfileHoldManager.add`: move to `addState` (allocate the cookie,
register the watch, store the hold), then switch to the new hold's
profile; the cookie is returned only if the switch did not raise, but the
state mutations persist either way. -/
def add (ok : Bool) (st : ControllerState) (profile : PPDProfile)
    (reason app_id caller : String) : Except PyError Nat × ControllerState :=
  ((switch_profile ok (addState st profile reason app_id caller) profile).1.map
      fun _ => st.cookie_counter,
    (switch_profile ok (addState st profile reason app_id caller) profile).2)

/-- Message of the DBusException raised by `Controller.HoldProfile` for a
profile that may not be held. -/
def holdProfileErrMsg : String :=
  "Only power-saver and performance profiles may be held"

/-- Message of the DBusException raised by `Controller.ReleaseProfile` for
an inactive cookie. -/
def noActiveHoldMsg (cookie : Nat) : String :=
  "No active hold for cookie " ++ toString cookie

/-- `Controller.HoldProfile`: raise unless the profile string equals
power-saver or performance (as a Python `StrEnum` member equals its string
value), else delegate to `add` with the corresponding profile. -/
def HoldProfile (ok : Bool) (st : ControllerState)
    (profile reason app_id caller : String) :
    Except PyError Nat × ControllerState :=
  if profile ≠ "power-saver" ∧ profile ≠ "performance" then
    (.error (.dbusException holdProfileErrMsg), st)
  else if profile = "power-saver" then
    add ok st .power_saver reason app_id caller
  else
    add ok st .performance reason app_id caller

/-- `Controller.ReleaseProfile`: reject when the cookie has no active
hold, else delegate to `remove`. -/
def ReleaseProfile (ok : Bool) (st : ControllerState) (cookie : Nat) :
    Except PyError Unit × ControllerState :=
  match st.holds.lookup cookie with
  | none => (.error (.dbusException (noActiveHoldMsg cookie)), st)
  | some _ => remove ok st cookie

/-- `Controller.set_active_profile` (the `ActiveProfile` property setter):
reject an unknown profile string, else set the base profile, clear all
holds, and switch. -/
def set_active_profile (ok : Bool) (st : ControllerState)
    (profile : String) : Except PyError Unit × ControllerState :=
  match parsePPD profile with
  | none => (.error (.dbusException ("Invalid profile " ++ profile)), st)
  | some p =>
      match clear { st with base_profile := p } with
      | (.ok (), st₂) => switch_profile ok st₂ p
      | (.error e, st₂) => (.error e, st₂)

/-- The closure built by `ProfileHoldManager._callback` and registered
with `bus.watch_name_owner`: when the bus reports an empty owner name for
the watched client, remove the hold for the captured cookie. -/
def watchCallback (ok : Bool) (st : ControllerState) (cookie : Nat)
    (name : String) : Except PyError Unit × ControllerState :=
  if name = "" then remove ok st cookie else (.ok (), st)

/-- `Controller.__init__` given the profile the backend reports at
startup: empty registry, cookie counter 0, base profile balanced, then an
immediate `switch_profile` to the base profile. -/
def Controller.init (ok : Bool) (backend₀ : TuneDProfile) :
    Except PyError Unit × ControllerState :=
  let st : ControllerState :=
    { holds := []
      cookie_counter := 0
      base_profile := .balanced
      backend := backend₀
      signals := [] }
  switch_profile ok st .balanced

/-- Specification-side `effective_hold_mode() -> Mode | None`, written
from the spec text (none when no holds are active, else power-saver if any
active hold requests power-saver, else performance), for comparison with
the source's `_effective_hold_profile`. -/
def effective_hold_mode_spec (st : ControllerState) : Option PPDProfile :=
  if st.holds.isEmpty then none
  else if st.holds.any (fun e => e.2.profile = PPDProfile.power_saver) then
    some PPDProfile.power_saver
  else some PPDProfile.performance

/-- One external event hitting the controller: a `HoldProfile` call, a
`ReleaseProfile` call, an `ActiveProfile` set, or a liveness-watch
callback firing; each carries whether a backend switch attempted during it
succeeds. -/
inductive Op where
  | holdOp (ok : Bool) (profile reason app_id caller : String)
  | releaseOp (ok : Bool) (cookie : Nat)
  | setActiveOp (ok : Bool) (profile : String)
  | callbackOp (ok : Bool) (cookie : Nat) (name : String)
deriving DecidableEq, Repr

/-- Controller state after one event. -/
def applyOp (op : Op) (st : ControllerState) : ControllerState :=
  match op with
  | .holdOp ok p r a c => (HoldProfile ok st p r a c).2
  | .releaseOp ok c => (ReleaseProfile ok st c).2
  | .setActiveOp ok p => (set_active_profile ok st p).2
  | .callbackOp ok c n => (watchCallback ok st c n).2

/-- The cookie list a `HoldProfile` result hands back to its caller: the
returned cookie on normal return, nothing when the call raised. -/
def issuedOf (r : Except PyError Nat) : List Nat :=
  match r with
  | .ok cookie => [cookie]
  | .error _ => []

/-- Cookies returned to a caller by one event: empty unless the event is a
`HoldProfile` call that returned normally. -/
def issuedBy (op : Op) (st : ControllerState) : List Nat :=
  match op with
  | .holdOp ok p r a c => issuedOf (HoldProfile ok st p r a c).1
  | .releaseOp _ _ => []
  | .setActiveOp _ _ => []
  | .callbackOp _ _ _ => []

/-- Run a sequence of events from a state, collecting the cookies returned
by the `HoldProfile` calls, in order. -/
def runOps (st : ControllerState) : List Op → ControllerState × List Nat
  | [] => (st, [])
  | op :: ops =>
      ((runOps (applyOp op st) ops).1,
        issuedBy op st ++ (runOps (applyOp op st) ops).2)

/-- Events that are not an `ActiveProfile` set. -/
def notSetActive : Op → Bool
  | .setActiveOp _ _ => false
  | _ => true

/-- Example hold requesting power-saver. -/
def psHold : ProfileHold :=
  ⟨.power_saver, "low battery", "org.example.saver", ":1.1"⟩

/-- Example hold requesting performance. -/
def perfHold : ProfileHold :=
  ⟨.performance, "compile job", "org.example.builder", ":1.2"⟩

/-- Controller state with an empty hold registry. -/
def emptyHoldsState : ControllerState :=
  { holds := []
    cookie_counter := 0
    base_profile := .balanced
    backend := .balanced
    signals := [] }

/-- Controller state with a single active performance hold (cookie 0). -/
def oneHoldState : ControllerState :=
  { holds := [(0, perfHold)]
    cookie_counter := 1
    base_profile := .balanced
    backend := .throughput_performance
    signals := [] }

/-- Controller state with a single active power-saver hold (cookie 0). -/
def onePsHoldState : ControllerState :=
  { holds := [(0, psHold)]
    cookie_counter := 1
    base_profile := .balanced
    backend := .powersave
    signals := [] }

/-- Controller state with two active performance holds (cookies 0 and 1)
and the backend in throughput-performance. -/
def twoHoldsState : ControllerState :=
  { holds := [(0, perfHold), (1, ⟨.performance, "video", "org.example.video", ":1.3"⟩)]
    cookie_counter := 2
    base_profile := .performance
    backend := .throughput_performance
    signals := [] }

/-! Helper lemmas about the embedded operations. -/

theorem tuned_roundtrip (p : PPDProfile) : TUNED_TO_PPD (PPD_TO_TUNED p) = p := by
  cases p <;> rfl

theorem switch_profile_state (ok : Bool) (st : ControllerState) (p : PPDProfile) :
    (switch_profile ok st p).2 = st ∨
    (switch_profile ok st p).2 = { st with backend := PPD_TO_TUNED p } := by
  unfold switch_profile
  split
  · exact Or.inl rfl
  · split
    · exact Or.inr rfl
    · exact Or.inl rfl

theorem switch_profile_holds (ok : Bool) (st : ControllerState) (p : PPDProfile) :
    ((switch_profile ok st p).2).holds = st.holds := by
  rcases switch_profile_state ok st p with h | h <;> rw [h]

theorem switch_profile_signals (ok : Bool) (st : ControllerState) (p : PPDProfile) :
    ((switch_profile ok st p).2).signals = st.signals := by
  rcases switch_profile_state ok st p with h | h <;> rw [h]

theorem switch_profile_counter (ok : Bool) (st : ControllerState) (p : PPDProfile) :
    ((switch_profile ok st p).2).cookie_counter = st.cookie_counter := by
  rcases switch_profile_state ok st p with h | h <;> rw [h]

theorem switch_profile_base (ok : Bool) (st : ControllerState) (p : PPDProfile) :
    ((switch_profile ok st p).2).base_profile = st.base_profile := by
  rcases switch_profile_state ok st p with h | h <;> rw [h]

theorem switch_profile_result (ok : Bool) (st : ControllerState) (p : PPDProfile) :
    (switch_profile ok st p).1 = .ok () ∨
    (switch_profile ok st p).1 = .error .backendUnavailable := by
  unfold switch_profile
  split
  · exact Or.inl rfl
  · split
    · exact Or.inl rfl
    · exact Or.inr rfl

theorem switch_profile_true (st : ControllerState) (p : PPDProfile) :
    (switch_profile true st p).1 = .ok () ∧
    active_profile (switch_profile true st p).2 = p := by
  unfold switch_profile
  split
  · next h => exact ⟨rfl, h⟩
  · rw [if_pos rfl]
    exact ⟨rfl, tuned_roundtrip p⟩

theorem switch_profile_false_error (st : ControllerState) (p : PPDProfile)
    (h : active_profile st ≠ p) :
    (switch_profile false st p).1 = .error .backendUnavailable := by
  unfold switch_profile
  rw [if_neg h]
  rfl

theorem lookup_dictInsert_self (k : Nat) (v : ProfileHold)
    (l : List (Nat × ProfileHold)) : (dictInsert k v l).lookup k = some v := by
  induction l with
  | nil => simp [dictInsert]
  | cons e rest ih =>
      obtain ⟨k₀, v₀⟩ := e
      unfold dictInsert
      split
      · simp [List.lookup_cons]
      · next hne =>
          simpa [List.lookup_cons, beq_false_of_ne (Ne.symm hne)] using ih

theorem lookup_dictPop_self (k : Nat) (l : List (Nat × ProfileHold)) :
    (dictPop k l).lookup k = none := by
  induction l with
  | nil => rfl
  | cons e rest ih =>
      obtain ⟨k₀, v₀⟩ := e
      unfold dictPop at ih ⊢
      rw [List.filter_cons]
      split
      · next hcond =>
          have hne : ¬(k = k₀) := by
            intro h
            rw [h] at hcond
            simp at hcond
          simpa [List.lookup_cons, beq_false_of_ne hne] using ih
      · exact ih

theorem cancel_lookup_none (st : ControllerState) (c : Nat) :
    ((cancel st c).holds).lookup c = none := by
  unfold cancel
  split
  · next h => exact h
  · exact lookup_dictPop_self c st.holds

theorem cancel_base (st : ControllerState) (c : Nat) :
    (cancel st c).base_profile = st.base_profile := by
  unfold cancel
  split <;> rfl

theorem cancel_counter (st : ControllerState) (c : Nat) :
    (cancel st c).cookie_counter = st.cookie_counter := by
  unfold cancel
  split <;> rfl

theorem cancel_signals_of_mem (st : ControllerState) (c : Nat)
    (h : ProfileHold) (hm : st.holds.lookup c = some h) :
    (cancel st c).signals = st.signals ++ [c] := by
  unfold cancel
  rw [hm]

theorem remove_holds (ok : Bool) (st : ControllerState) (c : Nat) :
    ((remove ok st c).2).holds = (cancel st c).holds :=
  switch_profile_holds ok (cancel st c) _

theorem remove_lookup_none (ok : Bool) (st : ControllerState) (c : Nat) :
    ((remove ok st c).2).holds.lookup c = none := by
  rw [remove_holds]
  exact cancel_lookup_none st c

theorem remove_signals_of_mem (ok : Bool) (st : ControllerState) (c : Nat)
    (h : ProfileHold) (hm : st.holds.lookup c = some h) :
    ((remove ok st c).2).signals = st.signals ++ [c] := by
  have h1 : ((remove ok st c).2).signals = (cancel st c).signals :=
    switch_profile_signals ok (cancel st c) _
  rw [h1, cancel_signals_of_mem st c h hm]

theorem remove_counter (ok : Bool) (st : ControllerState) (c : Nat) :
    ((remove ok st c).2).cookie_counter = st.cookie_counter := by
  have h1 : ((remove ok st c).2).cookie_counter = (cancel st c).cookie_counter :=
    switch_profile_counter ok (cancel st c) _
  rw [h1, cancel_counter]

theorem remove_base (ok : Bool) (st : ControllerState) (c : Nat) :
    ((remove ok st c).2).base_profile = st.base_profile := by
  have h1 : ((remove ok st c).2).base_profile = (cancel st c).base_profile :=
    switch_profile_base ok (cancel st c) _
  rw [h1, cancel_base]

theorem remove_result_shape (ok : Bool) (st : ControllerState) (c : Nat) :
    (remove ok st c).1 = .ok () ∨
    (remove ok st c).1 = .error .backendUnavailable :=
  switch_profile_result ok (cancel st c) _

theorem add_holds (ok : Bool) (st : ControllerState) (p : PPDProfile)
    (r a cl : String) :
    ((add ok st p r a cl).2).holds =
      dictInsert st.cookie_counter ⟨p, r, a, cl⟩ st.holds :=
  switch_profile_holds ok (addState st p r a cl) p

theorem add_counter (ok : Bool) (st : ControllerState) (p : PPDProfile)
    (r a cl : String) :
    ((add ok st p r a cl).2).cookie_counter = st.cookie_counter + 1 :=
  switch_profile_counter ok (addState st p r a cl) p

theorem add_base (ok : Bool) (st : ControllerState) (p : PPDProfile)
    (r a cl : String) :
    ((add ok st p r a cl).2).base_profile = st.base_profile :=
  switch_profile_base ok (addState st p r a cl) p

theorem add_result_true (st : ControllerState) (p : PPDProfile)
    (r a cl : String) :
    (add true st p r a cl).1 = .ok st.cookie_counter ∧
    active_profile (add true st p r a cl).2 = p := by
  have h := switch_profile_true (addState st p r a cl) p
  constructor
  · show ((switch_profile true (addState st p r a cl) p).1).map
      (fun _ => st.cookie_counter) = .ok st.cookie_counter
    rw [h.1]
    rfl
  · exact h.2

theorem add_result_shape (ok : Bool) (st : ControllerState) (p : PPDProfile)
    (r a cl : String) :
    (add ok st p r a cl).1 = .ok st.cookie_counter ∨
    (add ok st p r a cl).1 = .error .backendUnavailable := by
  rcases switch_profile_result ok (addState st p r a cl) p with h | h
  · left
    show ((switch_profile ok (addState st p r a cl) p).1).map
      (fun _ => st.cookie_counter) = .ok st.cookie_counter
    rw [h]
    rfl
  · right
    show ((switch_profile ok (addState st p r a cl) p).1).map
      (fun _ => st.cookie_counter) = .error .backendUnavailable
    rw [h]
    rfl

theorem add_ok_cookie (ok : Bool) (st : ControllerState) (p : PPDProfile)
    (r a cl : String) (k : Nat) (h : (add ok st p r a cl).1 = .ok k) :
    k = st.cookie_counter := by
  rcases add_result_shape ok st p r a cl with h2 | h2 <;> rw [h2] at h
  · exact (Except.ok.inj h).symm
  · exact absurd h (by intro hx; cases hx)

theorem clearLoop_counter (remaining : List Nat) (snapshot : Nat) :
    ∀ st : ControllerState,
      ((clearLoop st remaining snapshot).2).cookie_counter = st.cookie_counter := by
  induction remaining with
  | nil =>
      intro st
      unfold clearLoop
      split
      · rfl
      · rfl
  | cons c rest ih =>
      intro st
      unfold clearLoop
      split
      · rfl
      · show ((clearLoop (cancel st c) rest snapshot).2).cookie_counter = _
        rw [ih (cancel st c), cancel_counter]

theorem clear_counter (st : ControllerState) :
    ((clear st).2).cookie_counter = st.cookie_counter :=
  clearLoop_counter (st.holds.map Prod.fst) st.holds.length st

theorem releaseProfile_counter (ok : Bool) (st : ControllerState) (c : Nat) :
    ((ReleaseProfile ok st c).2).cookie_counter = st.cookie_counter := by
  unfold ReleaseProfile
  split
  · rfl
  · exact remove_counter ok st c

theorem releaseProfile_base (ok : Bool) (st : ControllerState) (c : Nat) :
    ((ReleaseProfile ok st c).2).base_profile = st.base_profile := by
  unfold ReleaseProfile
  split
  · rfl
  · exact remove_base ok st c

theorem releaseProfile_lookup_none (ok : Bool) (st : ControllerState) (c : Nat) :
    ((ReleaseProfile ok st c).2).holds.lookup c = none := by
  unfold ReleaseProfile
  split
  · next h => exact h
  · exact remove_lookup_none ok st c

theorem watchCallback_counter (ok : Bool) (st : ControllerState) (c : Nat)
    (n : String) :
    ((watchCallback ok st c n).2).cookie_counter = st.cookie_counter := by
  unfold watchCallback
  split
  · exact remove_counter ok st c
  · rfl

theorem watchCallback_base (ok : Bool) (st : ControllerState) (c : Nat)
    (n : String) :
    ((watchCallback ok st c n).2).base_profile = st.base_profile := by
  unfold watchCallback
  split
  · exact remove_base ok st c
  · rfl

theorem set_active_profile_counter (ok : Bool) (st : ControllerState)
    (profile : String) :
    ((set_active_profile ok st profile).2).cookie_counter = st.cookie_counter := by
  unfold set_active_profile
  split
  · rfl
  · next p hp =>
      split
      · next st₂ heq =>
          have h2 : ((clear { st with base_profile := p }).2) = st₂ :=
            congrArg Prod.snd heq
          rw [switch_profile_counter, ← h2, clear_counter]
      · next e st₂ heq =>
          have h2 : ((clear { st with base_profile := p }).2) = st₂ :=
            congrArg Prod.snd heq
          show st₂.cookie_counter = st.cookie_counter
          rw [← h2, clear_counter]

theorem holdProfile_counter_le (ok : Bool) (st : ControllerState)
    (profile r a cl : String) :
    st.cookie_counter ≤ ((HoldProfile ok st profile r a cl).2).cookie_counter := by
  unfold HoldProfile
  split
  · exact Nat.le_refl _
  · split
    · rw [add_counter]
      exact Nat.le_succ _
    · rw [add_counter]
      exact Nat.le_succ _

theorem holdProfile_base (ok : Bool) (st : ControllerState)
    (profile r a cl : String) :
    ((HoldProfile ok st profile r a cl).2).base_profile = st.base_profile := by
  unfold HoldProfile
  split
  · rfl
  · split
    · exact add_base ok st _ r a cl
    · exact add_base ok st _ r a cl

theorem holdProfile_ok_cookie (ok : Bool) (st : ControllerState)
    (profile r a cl : String) (k : Nat)
    (h : (HoldProfile ok st profile r a cl).1 = .ok k) :
    k = st.cookie_counter ∧
    ((HoldProfile ok st profile r a cl).2).cookie_counter =
      st.cookie_counter + 1 := by
  by_cases h1 : profile ≠ "power-saver" ∧ profile ≠ "performance"
  · have he : HoldProfile ok st profile r a cl =
        (.error (.dbusException holdProfileErrMsg), st) := by
      unfold HoldProfile
      rw [if_pos h1]
    rw [he] at h
    cases h
  · by_cases h2 : profile = "power-saver"
    · have he : HoldProfile ok st profile r a cl =
          add ok st .power_saver r a cl := by
        unfold HoldProfile
        rw [if_neg h1, if_pos h2]
      rw [he] at h ⊢
      exact ⟨add_ok_cookie ok st _ r a cl k h, add_counter ok st _ r a cl⟩
    · have he : HoldProfile ok st profile r a cl =
          add ok st .performance r a cl := by
        unfold HoldProfile
        rw [if_neg h1, if_neg h2]
      rw [he] at h ⊢
      exact ⟨add_ok_cookie ok st _ r a cl k h, add_counter ok st _ r a cl⟩

theorem applyOp_counter_le (op : Op) (st : ControllerState) :
    st.cookie_counter ≤ (applyOp op st).cookie_counter := by
  cases op with
  | holdOp ok p r a c => exact holdProfile_counter_le ok st p r a c
  | releaseOp ok c => exact Nat.le_of_eq (releaseProfile_counter ok st c).symm
  | setActiveOp ok p => exact Nat.le_of_eq (set_active_profile_counter ok st p).symm
  | callbackOp ok c n => exact Nat.le_of_eq (watchCallback_counter ok st c n).symm

theorem issuedBy_mem (op : Op) (st : ControllerState) (k : Nat)
    (hk : k ∈ issuedBy op st) :
    k = st.cookie_counter ∧
    st.cookie_counter < (applyOp op st).cookie_counter := by
  cases op with
  | holdOp ok p r a c =>
      have hk2 : k ∈ issuedOf (HoldProfile ok st p r a c).1 := hk
      cases hres : (HoldProfile ok st p r a c).1 with
      | error e =>
          rw [hres] at hk2
          cases hk2
      | ok cookie =>
          rw [hres] at hk2
          obtain ⟨hck, hcnt⟩ := holdProfile_ok_cookie ok st p r a c cookie hres
          rcases List.mem_singleton.mp hk2 with rfl
          refine ⟨hck, ?_⟩
          show st.cookie_counter < ((HoldProfile ok st p r a c).2).cookie_counter
          rw [hcnt]
          exact Nat.lt_succ_self _
  | releaseOp ok c => cases hk
  | setActiveOp ok p => cases hk
  | callbackOp ok c n => cases hk

theorem runOps_issued_ge (ops : List Op) :
    ∀ st k, k ∈ (runOps st ops).2 → st.cookie_counter ≤ k := by
  induction ops with
  | nil =>
      intro st k hk
      cases hk
  | cons op ops ih =>
      intro st k hk
      rcases List.mem_append.mp hk with h | h
      · exact Nat.le_of_eq ((issuedBy_mem op st k h).1).symm
      · exact Nat.le_trans (applyOp_counter_le op st) (ih (applyOp op st) k h)

theorem applyOp_base (op : Op) (st : ControllerState)
    (hop : notSetActive op = true) :
    (applyOp op st).base_profile = st.base_profile := by
  cases op with
  | holdOp ok p r a c => exact holdProfile_base ok st p r a c
  | releaseOp ok c => exact releaseProfile_base ok st c
  | setActiveOp ok p => cases hop
  | callbackOp ok c n => exact watchCallback_base ok st c n

theorem runOps_base (ops : List Op) :
    ∀ st : ControllerState, (∀ op ∈ ops, notSetActive op = true) →
      ((runOps st ops).1).base_profile = st.base_profile := by
  induction ops with
  | nil =>
      intro st _
      rfl
  | cons op ops ih =>
      intro st hall
      show ((runOps (applyOp op st) ops).1).base_profile = st.base_profile
      rw [ih (applyOp op st) fun o ho => hall o (List.mem_cons_of_mem op ho),
        applyOp_base op st (hall op (List.mem_cons_self op ops))]

/-! Claim theorems. -/

/-- Claim C9: the mode translation is total on the three symbolic modes (both
`PPD_TO_TUNED` and `TUNED_TO_PPD` are total functions) and round-trips:
for every mode m, translating m to the backend vocabulary and back yields
m. -/
theorem c9_mode_translation_roundtrip (m : PPDProfile) :
    TUNED_TO_PPD (PPD_TO_TUNED m) = m := by
  cases m <;> rfl

/-- Claim C2 counterexample: on a registry with no active holds the source's
`_effective_hold_profile` returns `performance`, while the claim (and the
spec's `effective_hold_mode`, transcribed as `effective_hold_mode_spec`)
says no-mode/None is returned. -/
theorem c2_counterexample :
    effective_hold_profile emptyHoldsState = PPDProfile.performance ∧
    effective_hold_mode_spec emptyHoldsState = none := by
  exact ⟨rfl, rfl⟩

/-- Claim C2 (amended): `_effective_hold_profile` returns power-saver when at
least one active hold requests power-saver (regardless of how many
performance holds coexist), and performance when no hold requests
power-saver — including when the registry holds no active holds at all
(`remove`, its only caller, tests for emptiness separately and uses the
base profile then). -/
theorem c2_effective_hold_mode_policy (st : ControllerState) :
    ((∃ e ∈ st.holds, e.2.profile = PPDProfile.power_saver) →
      effective_hold_profile st = PPDProfile.power_saver) ∧
    ((∀ e ∈ st.holds, e.2.profile ≠ PPDProfile.power_saver) →
      effective_hold_profile st = PPDProfile.performance) ∧
    (st.holds = [] → effective_hold_profile st = PPDProfile.performance) := by
  refine ⟨fun hex => ?_, fun hall => ?_, fun he => ?_⟩
  · unfold effective_hold_profile
    rw [if_pos (by simpa [List.any_eq_true] using hex)]
  · unfold effective_hold_profile
    rw [if_neg (by simpa [List.any_eq_true] using hall)]
  · unfold effective_hold_profile
    rw [he]
    rfl

/-- Claim C2 witness: the amended policy evaluated at concrete registries — one
power-saver hold, one performance hold, and no holds. -/
theorem c2_effective_hold_mode_policy_witness :
    effective_hold_profile onePsHoldState = PPDProfile.power_saver ∧
    effective_hold_profile oneHoldState = PPDProfile.performance ∧
    effective_hold_profile emptyHoldsState = PPDProfile.performance :=
  ⟨(c2_effective_hold_mode_policy onePsHoldState).1 (by decide),
   (c2_effective_hold_mode_policy oneHoldState).2.1 (by decide),
   (c2_effective_hold_mode_policy emptyHoldsState).2.2 rfl⟩

/-- Claim C1 (code evaluated at the failing input): with two active holds,
setting the ActiveProfile to balanced raises RuntimeError out of
`ProfileHoldManager.clear` — the loop `for cookie in self._holds` pops
entries from the very dict it iterates — after cancelling only the first
hold: afterwards the hold set is not empty, only one release notification
was emitted, and the current mode is not balanced, although the claim
demands an empty hold set and `current_mode() == balanced`. -/
theorem c1_set_active_profile_runtime_error :
    (set_active_profile true twoHoldsState "balanced").1 =
      .error (.runtimeError "dictionary changed size during iteration") ∧
    (set_active_profile true twoHoldsState "balanced").2.holds ≠ [] ∧
    (set_active_profile true twoHoldsState "balanced").2.signals = [0] ∧
    active_profile (set_active_profile true twoHoldsState "balanced").2 ≠
      PPDProfile.balanced := by
  refine ⟨rfl, by decide, rfl, by decide⟩

/-- Claim C3: for every cookie c and any prior state, a second `ReleaseProfile`
for c immediately after a first one finds no active hold for c: it leaves
the controller state (registry and emitted signals) unchanged and raises
the not-found DBus error instead of emitting a second ProfileReleased
signal. -/
theorem c3_second_release_is_noop (ok₁ ok₂ : Bool) (st : ControllerState)
    (c : Nat) :
    ReleaseProfile ok₂ (ReleaseProfile ok₁ st c).2 c =
      (.error (.dbusException (noActiveHoldMsg c)), (ReleaseProfile ok₁ st c).2) := by
  have h : ((ReleaseProfile ok₁ st c).2).holds.lookup c = none :=
    releaseProfile_lookup_none ok₁ st c
  generalize hst : (ReleaseProfile ok₁ st c).2 = st₁ at h ⊢
  unfold ReleaseProfile
  rw [h]

/-- Claim C4: `HoldProfile` raises the invalid-argument DBus error if and only
if the profile string is neither power-saver nor performance; on success
it returns the freshly allocated cookie, the hold is stored in the
registry under that cookie, and the system has switched to the newly
added hold's mode — whatever holds (including power-saver ones) already
existed. -/
theorem c4_hold_profile (ok : Bool) (st : ControllerState)
    (profile reason app_id caller : String) :
    ((HoldProfile ok st profile reason app_id caller).1 =
        .error (.dbusException holdProfileErrMsg) ↔
      (profile ≠ "power-saver" ∧ profile ≠ "performance")) ∧
    (∀ p : PPDProfile, profile = p.toStr →
      (p = PPDProfile.power_saver ∨ p = PPDProfile.performance) →
      (HoldProfile true st profile reason app_id caller).1 =
        .ok st.cookie_counter ∧
      ((HoldProfile true st profile reason app_id caller).2).holds.lookup
          st.cookie_counter = some ⟨p, reason, app_id, caller⟩ ∧
      active_profile (HoldProfile true st profile reason app_id caller).2 = p) := by
  constructor
  · by_cases h1 : profile = "power-saver"
    · subst h1
      unfold HoldProfile
      rw [if_neg (by simp), if_pos rfl]
      apply iff_of_false
      · intro habs
        rcases add_result_shape ok st .power_saver reason app_id caller with h2 | h2 <;>
          rw [h2] at habs <;> simp at habs
      · rintro ⟨ha, _⟩
        exact ha rfl
    · by_cases h2 : profile = "performance"
      · subst h2
        unfold HoldProfile
        rw [if_neg (by simp), if_neg (by simp)]
        apply iff_of_false
        · intro habs
          rcases add_result_shape ok st .performance reason app_id caller with h3 | h3 <;>
            rw [h3] at habs <;> simp at habs
        · rintro ⟨_, hb⟩
          exact hb rfl
      · unfold HoldProfile
        rw [if_pos ⟨h1, h2⟩]
        exact iff_of_true rfl ⟨h1, h2⟩
  · rintro p hp (rfl | rfl)
    · have hps : profile = "power-saver" := hp
      subst hps
      have he : HoldProfile true st "power-saver" reason app_id caller =
          add true st .power_saver reason app_id caller := by
        unfold HoldProfile
        rw [if_neg (by simp), if_pos rfl]
      rw [he]
      refine ⟨(add_result_true st _ reason app_id caller).1, ?_,
        (add_result_true st _ reason app_id caller).2⟩
      rw [add_holds]
      exact lookup_dictInsert_self _ _ _
    · have hpf : profile = "performance" := hp
      subst hpf
      have he : HoldProfile true st "performance" reason app_id caller =
          add true st .performance reason app_id caller := by
        unfold HoldProfile
        rw [if_neg (by simp), if_neg (by simp)]
      rw [he]
      refine ⟨(add_result_true st _ reason app_id caller).1, ?_,
        (add_result_true st _ reason app_id caller).2⟩
      rw [add_holds]
      exact lookup_dictInsert_self _ _ _

/-- Claim C4 witness: a successful HoldProfile for performance from an empty
registry returns cookie 0, stores the hold, and switches the system to
performance. -/
theorem c4_hold_profile_witness :
    (HoldProfile true emptyHoldsState "performance" "compile" "org.example.b" ":1.7").1 =
      .ok 0 ∧
    ((HoldProfile true emptyHoldsState "performance" "compile" "org.example.b" ":1.7").2).holds.lookup
        0 = some ⟨PPDProfile.performance, "compile", "org.example.b", ":1.7"⟩ ∧
    active_profile
        (HoldProfile true emptyHoldsState "performance" "compile" "org.example.b" ":1.7").2 =
      PPDProfile.performance :=
  (c4_hold_profile true emptyHoldsState "performance" "compile" "org.example.b" ":1.7").2
    PPDProfile.performance rfl (Or.inr rfl)

/-- Claim C5: `ReleaseProfile` raises the not-found DBus error exactly when the
cookie has no active hold (and then leaves the state unchanged); when the
cookie is active it removes the hold and switches to the effective hold
mode if holds remain, else to the base profile. -/
theorem c5_release_profile (ok : Bool) (st : ControllerState) (c : Nat) :
    ((ReleaseProfile ok st c).1 = .error (.dbusException (noActiveHoldMsg c)) ↔
      st.holds.lookup c = none) ∧
    (st.holds.lookup c = none → (ReleaseProfile ok st c).2 = st) ∧
    (st.holds.lookup c ≠ none →
      ((ReleaseProfile true st c).2).holds.lookup c = none ∧
      active_profile (ReleaseProfile true st c).2 =
        (if (cancel st c).holds.length ≠ 0 then
          effective_hold_profile (cancel st c)
         else st.base_profile)) := by
  cases hc : st.holds.lookup c with
  | none =>
      have he : ReleaseProfile ok st c =
          (.error (.dbusException (noActiveHoldMsg c)), st) := by
        unfold ReleaseProfile
        rw [hc]
      refine ⟨?_, fun _ => ?_, fun hne => absurd rfl hne⟩
      · rw [he]
        exact iff_of_true rfl rfl
      · rw [he]
  | some hold =>
      have he : ReleaseProfile ok st c = remove ok st c := by
        unfold ReleaseProfile
        rw [hc]
      have he2 : ReleaseProfile true st c = remove true st c := by
        unfold ReleaseProfile
        rw [hc]
      refine ⟨?_, fun habs => ?_, fun _ => ?_⟩
      · rw [he]
        apply iff_of_false
        · intro habs
          rcases remove_result_shape ok st c with h2 | h2 <;>
            rw [h2] at habs <;> simp at habs
        · intro hx
          cases hx
      · cases habs
      · constructor
        · exact releaseProfile_lookup_none true st c
        · rw [he2]
          have h3 : active_profile (remove true st c).2 =
              (if (cancel st c).holds.length ≠ 0 then
                effective_hold_profile (cancel st c)
               else (cancel st c).base_profile) :=
            (switch_profile_true (cancel st c) _).2
          rw [h3, cancel_base]

/-- Claim C5 witness: releasing the only active hold (cookie 0) removes it and,
with no holds remaining, switches back to the base profile. -/
theorem c5_release_profile_witness :
    (((ReleaseProfile true oneHoldState 0).2).holds.lookup 0 = none ∧
      active_profile (ReleaseProfile true oneHoldState 0).2 =
        (if (cancel oneHoldState 0).holds.length ≠ 0 then
          effective_hold_profile (cancel oneHoldState 0)
         else oneHoldState.base_profile)) ∧
    (ReleaseProfile true emptyHoldsState 5).2 = emptyHoldsState :=
  ⟨(c5_release_profile true oneHoldState 0).2.2 (by decide),
   (c5_release_profile true emptyHoldsState 5).2.1 rfl⟩

/-- Claim C7: the registry mutations of `add` are not rolled back when the
immediate backend switch fails: the hold is registered under the
allocated cookie in the post-state whatever the switch outcome, and with
a failing backend and a differing active mode the call raises
backend-unavailable. -/
theorem c7_add_not_rolled_back (ok : Bool) (st : ControllerState)
    (p : PPDProfile) (reason app_id caller : String) :
    ((add ok st p reason app_id caller).2).holds.lookup st.cookie_counter =
      some ⟨p, reason, app_id, caller⟩ ∧
    (ok = false → active_profile st ≠ p →
      (add ok st p reason app_id caller).1 = .error .backendUnavailable) := by
  constructor
  · rw [add_holds]
    exact lookup_dictInsert_self _ _ _
  · rintro rfl hne
    have hne2 : active_profile (addState st p reason app_id caller) ≠ p := hne
    show ((switch_profile false (addState st p reason app_id caller) p).1).map
      (fun _ => st.cookie_counter) = .error .backendUnavailable
    rw [switch_profile_false_error (addState st p reason app_id caller) p hne2]
    rfl

/-- Claim C7 witness: a hold added while the backend refuses to switch stays
registered with its cookie and the call reports backend-unavailable. -/
theorem c7_add_not_rolled_back_witness :
    ((add false emptyHoldsState PPDProfile.performance "encode" "org.example.enc" ":1.4").2).holds.lookup
        0 = some ⟨PPDProfile.performance, "encode", "org.example.enc", ":1.4"⟩ ∧
    (add false emptyHoldsState PPDProfile.performance "encode" "org.example.enc" ":1.4").1 =
      .error .backendUnavailable :=
  ⟨(c7_add_not_rolled_back false emptyHoldsState .performance "encode" "org.example.enc" ":1.4").1,
   (c7_add_not_rolled_back false emptyHoldsState .performance "encode" "org.example.enc" ":1.4").2
     rfl (by decide)⟩

/-- Claim C8: when the liveness-watch callback for a held cookie fires with an
empty owner name (client disconnect), the hold is removed from the
registry and a ProfileReleased signal carrying that cookie is emitted —
with no ReleaseProfile call involved. -/
theorem c8_disconnect_releases_hold (ok : Bool) (st : ControllerState)
    (c : Nat) (h : ProfileHold) (hm : st.holds.lookup c = some h) :
    ((watchCallback ok st c "").2).holds.lookup c = none ∧
    ((watchCallback ok st c "").2).signals = st.signals ++ [c] := by
  have hw : watchCallback ok st c "" = remove ok st c := by
    unfold watchCallback
    rw [if_pos rfl]
  rw [hw]
  exact ⟨remove_lookup_none ok st c, remove_signals_of_mem ok st c h hm⟩

/-- Claim C8 witness: the callback firing with an empty name for the client
holding cookie 0 removes the hold and emits ProfileReleased(0). -/
theorem c8_disconnect_releases_hold_witness :
    ((watchCallback true oneHoldState 0 "").2).holds.lookup 0 = none ∧
    ((watchCallback true oneHoldState 0 "").2).signals =
      oneHoldState.signals ++ [0] :=
  c8_disconnect_releases_hold true oneHoldState 0 perfHold (by decide)

/-- Claim C6: for every sequence of controller events from any state, the
cookies returned by the HoldProfile calls are pairwise strictly
increasing in the order they were issued — hence unique, each strictly
greater than every previously issued cookie, and never reused even after
their hold is removed. -/
theorem c6_cookies_strictly_increasing (st : ControllerState)
    (ops : List Op) :
    ((runOps st ops).2).Pairwise (· < ·) ∧ ((runOps st ops).2).Nodup := by
  have hp : ((runOps st ops).2).Pairwise (· < ·) := by
    induction ops generalizing st with
    | nil => exact List.Pairwise.nil
    | cons op ops ih =>
        show (issuedBy op st ++ (runOps (applyOp op st) ops).2).Pairwise (· < ·)
        rw [List.pairwise_append]
        refine ⟨?_, ih (applyOp op st), ?_⟩
        · cases op with
          | holdOp ok p r a c =>
              show (issuedOf (HoldProfile ok st p r a c).1).Pairwise (· < ·)
              cases hres : (HoldProfile ok st p r a c).1 with
              | error e => exact List.Pairwise.nil
              | ok cookie => simp [issuedOf]
          | releaseOp ok c => exact List.Pairwise.nil
          | setActiveOp ok p => exact List.Pairwise.nil
          | callbackOp ok c n => exact List.Pairwise.nil
        · intro a ha b hb
          obtain ⟨hae, hlt⟩ := issuedBy_mem op st a ha
          have hb2 := runOps_issued_ge ops (applyOp op st) b hb
          rw [hae]
          exact Nat.lt_of_lt_of_le hlt hb2
  exact ⟨hp, List.Pairwise.imp Nat.ne_of_lt hp⟩

/-- Claim C10: at construction the Controller's base profile is balanced and it
immediately switches to balanced — a no-op exactly when the backend
already reports balanced, otherwise (with the backend up) the backend ends
in balanced; and as long as no ActiveProfile set happens, the base profile
stays balanced across any further events. -/
theorem c10_controller_init (ok : Bool) (b₀ : TuneDProfile) :
    ((Controller.init ok b₀).2).base_profile = PPDProfile.balanced ∧
    (TUNED_TO_PPD b₀ = PPDProfile.balanced →
      Controller.init ok b₀ =
        (.ok (), (⟨[], 0, .balanced, b₀, []⟩ : ControllerState))) ∧
    (TUNED_TO_PPD b₀ ≠ PPDProfile.balanced →
      (Controller.init true b₀).2.backend = TuneDProfile.balanced ∧
      active_profile (Controller.init true b₀).2 = PPDProfile.balanced) ∧
    (∀ ops : List Op, (∀ op ∈ ops, notSetActive op = true) →
      ((runOps (Controller.init ok b₀).2 ops).1).base_profile =
        PPDProfile.balanced) := by
  refine ⟨?_, fun hb => ?_, fun hb => ?_, fun ops hops => ?_⟩
  · exact switch_profile_base ok _ .balanced
  · have hcond : active_profile (⟨[], 0, .balanced, b₀, []⟩ : ControllerState) =
        PPDProfile.balanced := hb
    show switch_profile ok (⟨[], 0, .balanced, b₀, []⟩ : ControllerState)
        PPDProfile.balanced = _
    unfold switch_profile
    rw [if_pos hcond]
  · have hcond : ¬(active_profile (⟨[], 0, .balanced, b₀, []⟩ : ControllerState) =
        PPDProfile.balanced) := hb
    constructor
    · show (switch_profile true (⟨[], 0, .balanced, b₀, []⟩ : ControllerState)
          PPDProfile.balanced).2.backend = _
      unfold switch_profile
      rw [if_neg hcond, if_pos rfl]
      rfl
    · exact (switch_profile_true _ _).2
  · rw [runOps_base ops ((Controller.init ok b₀).2) hops]
    exact switch_profile_base ok _ .balanced

/-- Claim C10 witness: a backend starting in powersave is switched to balanced
at construction; a backend already in balanced needs no switch; and the
base profile stays balanced across a non-setter event. -/
theorem c10_controller_init_witness :
    (Controller.init true TuneDProfile.powersave).2.backend =
      TuneDProfile.balanced ∧
    active_profile (Controller.init true TuneDProfile.powersave).2 =
      PPDProfile.balanced ∧
    Controller.init true TuneDProfile.balanced =
      (.ok (), (⟨[], 0, .balanced, .balanced, []⟩ : ControllerState)) ∧
    ((runOps (Controller.init true TuneDProfile.powersave).2
        [Op.releaseOp true 0]).1).base_profile = PPDProfile.balanced :=
  ⟨((c10_controller_init true .powersave).2.2.1 (by decide)).1,
   ((c10_controller_init true .powersave).2.2.1 (by decide)).2,
   (c10_controller_init true .balanced).2.1 rfl,
   (c10_controller_init true .powersave).2.2.2 [Op.releaseOp true 0] (by decide)⟩

end TunedPPD
